import Mathlib

set_option autoImplicit false

/-!
Verification of the nanit-web live-monitoring core against its design notes.

The Go sources are embedded shallowly: every pointer field (`*T`) becomes an
`Option`, `nil` becoming `none`; Go structs become Lean structures with the
same field lists; fallible lookups return `Option`.  Pointer identity, where
the Go code depends on it (the merge change-detection and the broadcaster
registry), is modelled with explicit address heaps (`List` indexed by `Nat`
addresses, allocation = append).
-/

namespace Baby

/-- `StreamRequestState` enum from pkg/baby/state.go (NotRequested = 0,
Requested = 1, RequestFailed = 2). -/
inductive StreamRequestState where
  | notRequested
  | requested
  | requestFailed
deriving DecidableEq

/-- `StreamState` enum from pkg/baby/state.go (Unknown = 0, Unhealthy = 1,
Alive = 2). -/
inductive StreamState where
  | unknown
  | unhealthy
  | alive
deriving DecidableEq

/-- `DeviceInfo` struct from pkg/baby/state.go.  Every Go pointer field is an
`Option`; the `AvailableSoundtracks []string` slice is `Option (List String)`
(Go distinguishes a nil slice from an empty one, and the merge only tests
`!= nil`). -/
structure DeviceInfo where
  firmwareVersion : Option String := none
  hardwareVersion : Option String := none
  deviceMode : Option String := none
  mountingMode : Option Int := none
  wifiNetwork : Option String := none
  wifiBand : Option String := none
  nightVision : Option Bool := none
  volume : Option Int := none
  sleepMode : Option Bool := none
  statusLight : Option Bool := none
  micMute : Option Bool := none
  antiFlicker : Option String := none
  streamingError : Option String := none
  upgradeDownloaded : Option Bool := none
  availableSoundtracks : Option (List String) := none
  tempLowThreshold : Option Int := none
  tempHighThreshold : Option Int := none
  humidityLowThreshold : Option Int := none
  humidityHighThreshold : Option Int := none
  mobileBitrate : Option Int := none
  mobileFPS : Option Int := none
  dvrBitrate : Option Int := none
  dvrFPS : Option Int := none
  analyticsBitrate : Option Int := none
  analyticsFPS : Option Int := none
  lastUpdated : Option Int := none
deriving DecidableEq

/-- `State` struct from pkg/baby/state.go, in source field order. -/
structure State where
  streamState : Option StreamState := none
  streamRequestState : Option StreamRequestState := none
  isWebsocketAlive : Option Bool := none
  lastVideoPacketTime : Option Int := none
  motionTimestamp : Option Int := none
  soundTimestamp : Option Int := none
  temperature : Option Bool := none
  isNight : Option Bool := none
  temperatureMilli : Option Int := none
  humidityMilli : Option Int := none
  nightLight : Option Bool := none
  standby : Option Bool := none
  deviceInfo : Option DeviceInfo := none
deriving DecidableEq

/-- `NewState` constructor: `&State{}`, every field nil. -/
def NewState : State := {}

/-- One iteration of the reflective loop in `State.Merge` for an ordinary
pointer field (state.go lines 123-130): if the patch field is non-nil and
(the current field is nil or the dereferenced values differ) the patch value
is copied into a fresh pointer and the field counts as changed; otherwise the
new record shares the current field.  Returns (field of the new record,
whether this field set `changed`). -/
def mergePtrField {α : Type} [DecidableEq α] (currField patchField : Option α) :
    Option α × Bool :=
  match patchField with
  | none => (currField, false)
  | some pv =>
    match currField with
    | none => (some pv, true)
    | some cv => if cv = pv then (currField, false) else (some pv, true)

/-- `State.mergeDeviceInfo` body for the case where both arguments are
non-nil (state.go lines 150-230): `merged := *current`, then each patch field
that is non-nil overwrites the copy.  Note the source never copies
`patch.LastUpdated`: `merged.LastUpdated` keeps the current value. -/
def mergeDeviceInfo (current patch : DeviceInfo) : DeviceInfo where
  firmwareVersion := if patch.firmwareVersion.isSome then patch.firmwareVersion else current.firmwareVersion
  hardwareVersion := if patch.hardwareVersion.isSome then patch.hardwareVersion else current.hardwareVersion
  deviceMode := if patch.deviceMode.isSome then patch.deviceMode else current.deviceMode
  mountingMode := if patch.mountingMode.isSome then patch.mountingMode else current.mountingMode
  wifiNetwork := if patch.wifiNetwork.isSome then patch.wifiNetwork else current.wifiNetwork
  wifiBand := if patch.wifiBand.isSome then patch.wifiBand else current.wifiBand
  nightVision := if patch.nightVision.isSome then patch.nightVision else current.nightVision
  volume := if patch.volume.isSome then patch.volume else current.volume
  sleepMode := if patch.sleepMode.isSome then patch.sleepMode else current.sleepMode
  statusLight := if patch.statusLight.isSome then patch.statusLight else current.statusLight
  micMute := if patch.micMute.isSome then patch.micMute else current.micMute
  antiFlicker := if patch.antiFlicker.isSome then patch.antiFlicker else current.antiFlicker
  streamingError := if patch.streamingError.isSome then patch.streamingError else current.streamingError
  upgradeDownloaded := if patch.upgradeDownloaded.isSome then patch.upgradeDownloaded else current.upgradeDownloaded
  availableSoundtracks := if patch.availableSoundtracks.isSome then patch.availableSoundtracks else current.availableSoundtracks
  tempLowThreshold := if patch.tempLowThreshold.isSome then patch.tempLowThreshold else current.tempLowThreshold
  tempHighThreshold := if patch.tempHighThreshold.isSome then patch.tempHighThreshold else current.tempHighThreshold
  humidityLowThreshold := if patch.humidityLowThreshold.isSome then patch.humidityLowThreshold else current.humidityLowThreshold
  humidityHighThreshold := if patch.humidityHighThreshold.isSome then patch.humidityHighThreshold else current.humidityHighThreshold
  mobileBitrate := if patch.mobileBitrate.isSome then patch.mobileBitrate else current.mobileBitrate
  mobileFPS := if patch.mobileFPS.isSome then patch.mobileFPS else current.mobileFPS
  dvrBitrate := if patch.dvrBitrate.isSome then patch.dvrBitrate else current.dvrBitrate
  dvrFPS := if patch.dvrFPS.isSome then patch.dvrFPS else current.dvrFPS
  analyticsBitrate := if patch.analyticsBitrate.isSome then patch.analyticsBitrate else current.analyticsBitrate
  analyticsFPS := if patch.analyticsFPS.isSome then patch.analyticsFPS else current.analyticsFPS
  lastUpdated := current.lastUpdated

/-- The `DeviceInfo` branch of the reflective loop in `State.Merge`
(state.go lines 108-122).  When the patch has a nil `DeviceInfo` the loop
falls through to `newField.Set(currField)`.  When the current `DeviceInfo` is
nil the patch pointer is taken and `changed` is set.  When both are non-nil,
`mergeDeviceInfo` returns a freshly allocated record (`&merged`), so the Go
pointer comparison `mergedDeviceInfo != currField.Interface().(*DeviceInfo)`
is true on every call and `changed` is set unconditionally. -/
def mergeDeviceInfoField (currField patchField : Option DeviceInfo) :
    Option DeviceInfo × Bool :=
  match patchField with
  | none => (currField, false)
  | some pd =>
    match currField with
    | none => (some pd, true)
    | some cd => (some (mergeDeviceInfo cd pd), true)

/-- `State.Merge` (state.go lines 92-139): builds `newState` field by field
and tracks `changed`; returns the new record if anything changed, the old
record otherwise.  The second component is the `changed` flag (true exactly
when the Go function returns the freshly allocated record). -/
def mergeWithChanged (state stateUpdate : State) : State × Bool :=
  let f1 := mergePtrField state.streamState stateUpdate.streamState
  let f2 := mergePtrField state.streamRequestState stateUpdate.streamRequestState
  let f3 := mergePtrField state.isWebsocketAlive stateUpdate.isWebsocketAlive
  let f4 := mergePtrField state.lastVideoPacketTime stateUpdate.lastVideoPacketTime
  let f5 := mergePtrField state.motionTimestamp stateUpdate.motionTimestamp
  let f6 := mergePtrField state.soundTimestamp stateUpdate.soundTimestamp
  let f7 := mergePtrField state.temperature stateUpdate.temperature
  let f8 := mergePtrField state.isNight stateUpdate.isNight
  let f9 := mergePtrField state.temperatureMilli stateUpdate.temperatureMilli
  let f10 := mergePtrField state.humidityMilli stateUpdate.humidityMilli
  let f11 := mergePtrField state.nightLight stateUpdate.nightLight
  let f12 := mergePtrField state.standby stateUpdate.standby
  let fdi := mergeDeviceInfoField state.deviceInfo stateUpdate.deviceInfo
  let newState : State :=
    ⟨f1.1, f2.1, f3.1, f4.1, f5.1, f6.1, f7.1, f8.1, f9.1, f10.1, f11.1, f12.1, fdi.1⟩
  let changed := f1.2 || f2.2 || f3.2 || f4.2 || f5.2 || f6.2 || f7.2 || f8.2
    || f9.2 || f10.2 || f11.2 || f12.2 || fdi.2
  (if changed then newState else state, changed)

/-- Value returned by `State.Merge`. -/
def Merge (state stateUpdate : State) : State := (mergeWithChanged state stateUpdate).1

/-- Whether `State.Merge` took the `changed` path (returned a fresh record). -/
def mergeChanged (state stateUpdate : State) : Bool := (mergeWithChanged state stateUpdate).2

/-- Modelled from the spec: `StateManager.Update` (the state-store file is not
under src/, only its callers are).  Per the spec it performs the field-level
merge and, if no field actually changed, returns the unchanged prior record
without notifying subscribers; subscribers are notified exactly when the
merge reports a change (returns a new record). -/
def updateNotifiesSubscribers (current patch : State) : Bool := mergeChanged current patch

end Baby

namespace Baby

/-- Spec-side per-field merge rule (§3 of the design notes): a field present
in the patch always overwrites, a field absent in the patch never does. -/
def specMergeField {α : Type} (currField patchField : Option α) : Option α :=
  match patchField with
  | some v => some v
  | none => currField

/-- Spec-side `DeviceInfo` merge: the per-field rule applied recursively to
every field of the sub-record. -/
def specMergeDeviceInfo (current patch : DeviceInfo) : DeviceInfo where
  firmwareVersion := specMergeField current.firmwareVersion patch.firmwareVersion
  hardwareVersion := specMergeField current.hardwareVersion patch.hardwareVersion
  deviceMode := specMergeField current.deviceMode patch.deviceMode
  mountingMode := specMergeField current.mountingMode patch.mountingMode
  wifiNetwork := specMergeField current.wifiNetwork patch.wifiNetwork
  wifiBand := specMergeField current.wifiBand patch.wifiBand
  nightVision := specMergeField current.nightVision patch.nightVision
  volume := specMergeField current.volume patch.volume
  sleepMode := specMergeField current.sleepMode patch.sleepMode
  statusLight := specMergeField current.statusLight patch.statusLight
  micMute := specMergeField current.micMute patch.micMute
  antiFlicker := specMergeField current.antiFlicker patch.antiFlicker
  streamingError := specMergeField current.streamingError patch.streamingError
  upgradeDownloaded := specMergeField current.upgradeDownloaded patch.upgradeDownloaded
  availableSoundtracks := specMergeField current.availableSoundtracks patch.availableSoundtracks
  tempLowThreshold := specMergeField current.tempLowThreshold patch.tempLowThreshold
  tempHighThreshold := specMergeField current.tempHighThreshold patch.tempHighThreshold
  humidityLowThreshold := specMergeField current.humidityLowThreshold patch.humidityLowThreshold
  humidityHighThreshold := specMergeField current.humidityHighThreshold patch.humidityHighThreshold
  mobileBitrate := specMergeField current.mobileBitrate patch.mobileBitrate
  mobileFPS := specMergeField current.mobileFPS patch.mobileFPS
  dvrBitrate := specMergeField current.dvrBitrate patch.dvrBitrate
  dvrFPS := specMergeField current.dvrFPS patch.dvrFPS
  analyticsBitrate := specMergeField current.analyticsBitrate patch.analyticsBitrate
  analyticsFPS := specMergeField current.analyticsFPS patch.analyticsFPS
  lastUpdated := specMergeField current.lastUpdated patch.lastUpdated

/-- Spec-side `State` merge: per-field rule on every top-level field, with the
`DeviceInfo` sub-record merged recursively rather than replaced wholesale. -/
def specMergeState (s p : State) : State where
  streamState := specMergeField s.streamState p.streamState
  streamRequestState := specMergeField s.streamRequestState p.streamRequestState
  isWebsocketAlive := specMergeField s.isWebsocketAlive p.isWebsocketAlive
  lastVideoPacketTime := specMergeField s.lastVideoPacketTime p.lastVideoPacketTime
  motionTimestamp := specMergeField s.motionTimestamp p.motionTimestamp
  soundTimestamp := specMergeField s.soundTimestamp p.soundTimestamp
  temperature := specMergeField s.temperature p.temperature
  isNight := specMergeField s.isNight p.isNight
  temperatureMilli := specMergeField s.temperatureMilli p.temperatureMilli
  humidityMilli := specMergeField s.humidityMilli p.humidityMilli
  nightLight := specMergeField s.nightLight p.nightLight
  standby := specMergeField s.standby p.standby
  deviceInfo :=
    match p.deviceInfo with
    | none => s.deviceInfo
    | some pd =>
      match s.deviceInfo with
      | none => some pd
      | some sd => some (specMergeDeviceInfo sd pd)

/-- A state whose `DeviceInfo` carries only a last-updated timestamp of 1. -/
def diStateOld : State := { deviceInfo := some { lastUpdated := some 1 } }

/-- A patch whose `DeviceInfo` carries only a last-updated timestamp of 2. -/
def diPatchNew : State := { deviceInfo := some { lastUpdated := some 2 } }

end Baby

namespace Baby

/-- A state holding only an empty (all-fields-absent) `DeviceInfo` record. -/
def emptyDIState : State := { deviceInfo := some {} }

end Baby

/-- C1: for every state `s` and patch `p`, every field of `Merge(s, p)` is the
patch's value when present in `p` and the existing value otherwise, with the
`DeviceInfo` sub-record merged by the same per-field rule recursively.  The
code violates this for the `DeviceInfo.LastUpdated` field: when the target
already holds a `DeviceInfo` record, `mergeDeviceInfo` never copies
`patch.LastUpdated`, so a present last-updated timestamp in the patch is
dropped.  At the failing input below the merged sub-record keeps the old
timestamp 1 where the claimed per-field rule requires the patch's value 2. -/
theorem c1_mergeDeviceInfo_drops_patch_lastUpdated :
    (Baby.Merge Baby.diStateOld Baby.diPatchNew).deviceInfo
      = some { lastUpdated := some 1 }
    ∧ (Baby.specMergeState Baby.diStateOld Baby.diPatchNew).deviceInfo
      = some { lastUpdated := some 2 } := by
  exact ⟨rfl, rfl⟩

/-- C2: merging a patch that changes no field value is claimed to return the
unchanged prior record and trigger no subscriber notification.  The code
violates this whenever both the target and the patch carry a `DeviceInfo`
record: `mergeDeviceInfo` always returns a freshly allocated record, so the
pointer-inequality change check in `State.Merge` is always true.  At the
failing input below (target and patch both hold an empty `DeviceInfo`) the
merge result is value-identical to the prior state, yet the `changed` flag is
reported true — `Merge` returns a fresh record and the store notifies
subscribers. -/
theorem c2_idempotent_deviceinfo_patch_counts_as_change :
    Baby.Merge Baby.emptyDIState Baby.emptyDIState = Baby.emptyDIState
    ∧ Baby.mergeChanged Baby.emptyDIState Baby.emptyDIState = true
    ∧ Baby.updateNotifiesSubscribers Baby.emptyDIState Baby.emptyDIState = true := by
  exact ⟨rfl, rfl, rfl⟩

namespace GoHeap

/-- A `State` record as laid out on the Go heap.  Scalar pointer fields are
modelled by their pointee values — `State.Merge` never writes through them,
it only copies values into `reflect.New` allocations — while the
`DeviceInfo` pointer, whose identity the merge's change check compares, is an
explicit address into the heap's `DeviceInfo` store. -/
structure StateObj where
  streamState : Option Baby.StreamState := none
  streamRequestState : Option Baby.StreamRequestState := none
  isWebsocketAlive : Option Bool := none
  lastVideoPacketTime : Option Int := none
  motionTimestamp : Option Int := none
  soundTimestamp : Option Int := none
  temperature : Option Bool := none
  isNight : Option Bool := none
  temperatureMilli : Option Int := none
  humidityMilli : Option Int := none
  nightLight : Option Bool := none
  standby : Option Bool := none
  deviceInfo : Option Nat := none
deriving DecidableEq

/-- Go allocations of the two record types `State.Merge` writes.  Addresses
are list indices; allocation appends at the end. -/
structure Heap where
  states : List StateObj
  dis : List Baby.DeviceInfo
deriving DecidableEq

/-- The `DeviceInfo` branch of `State.Merge` over the heap (state.go lines
108-122): a nil patch pointer keeps the current pointer; a nil current
pointer shares the patch pointer and sets `changed`; otherwise
`mergeDeviceInfo` allocates a fresh record (`merged := *current; ...;
return &merged`) and `changed` is the pointer comparison of the fresh
address against the current one.  Returns (DeviceInfo store, new field,
changed). -/
def diMergeHeap (dis : List Baby.DeviceInfo) (sdi pdi : Option Nat) :
    Option (List Baby.DeviceInfo × Option Nat × Bool) :=
  match pdi with
  | none => some (dis, sdi, false)
  | some pa =>
    match sdi with
    | none => some (dis, some pa, true)
    | some sa =>
      match dis[sa]?, dis[pa]? with
      | some sv, some pv =>
        some (dis ++ [Baby.mergeDeviceInfo sv pv], some dis.length, dis.length != sa)
      | _, _ => none
  
/-- `State.Merge` over the heap: reads the two records, allocates
`newState := &State{}` filled field by field, and returns the fresh address
if `changed` and the old address otherwise.  Result: (heap, returned
address, changed flag).  `none` only on dangling addresses, which Go cannot
produce. -/
def mergeGoHeap (h : Heap) (sa pa : Nat) : Option (Heap × Nat × Bool) :=
  match h.states[sa]?, h.states[pa]? with
  | some s, some p =>
    match diMergeHeap h.dis s.deviceInfo p.deviceInfo with
    | none => none
    | some (dis', diField, diChanged) =>
      let f1 := Baby.mergePtrField s.streamState p.streamState
      let f2 := Baby.mergePtrField s.streamRequestState p.streamRequestState
      let f3 := Baby.mergePtrField s.isWebsocketAlive p.isWebsocketAlive
      let f4 := Baby.mergePtrField s.lastVideoPacketTime p.lastVideoPacketTime
      let f5 := Baby.mergePtrField s.motionTimestamp p.motionTimestamp
      let f6 := Baby.mergePtrField s.soundTimestamp p.soundTimestamp
      let f7 := Baby.mergePtrField s.temperature p.temperature
      let f8 := Baby.mergePtrField s.isNight p.isNight
      let f9 := Baby.mergePtrField s.temperatureMilli p.temperatureMilli
      let f10 := Baby.mergePtrField s.humidityMilli p.humidityMilli
      let f11 := Baby.mergePtrField s.nightLight p.nightLight
      let f12 := Baby.mergePtrField s.standby p.standby
      let newStateObj : StateObj :=
        ⟨f1.1, f2.1, f3.1, f4.1, f5.1, f6.1, f7.1, f8.1, f9.1, f10.1, f11.1, f12.1, diField⟩
      let changed := f1.2 || f2.2 || f3.2 || f4.2 || f5.2 || f6.2 || f7.2 || f8.2
        || f9.2 || f10.2 || f11.2 || f12.2 || diChanged
      some ({ states := h.states ++ [newStateObj], dis := dis' },
            if changed then h.states.length else sa, changed)
  | _, _ => none

/-- Every run of `diMergeHeap` only appends to the DeviceInfo store. -/
theorem diMergeHeap_extends (dis : List Baby.DeviceInfo) (sdi pdi : Option Nat)
    (dis' : List Baby.DeviceInfo) (f : Option Nat) (c : Bool)
    (hrun : diMergeHeap dis sdi pdi = some (dis', f, c)) :
    ∃ t, dis' = dis ++ t := by
  unfold diMergeHeap at hrun
  cases pdi with
  | none =>
    simp only [Option.some.injEq, Prod.mk.injEq] at hrun
    exact ⟨[], by simp [hrun.1]⟩
  | some pa =>
    cases sdi with
    | none =>
      simp only [Option.some.injEq, Prod.mk.injEq] at hrun
      exact ⟨[], by simp [hrun.1]⟩
    | some sa =>
      cases hs : dis[sa]? with
      | none => simp [hs] at hrun
      | some sv =>
        cases hp : dis[pa]? with
        | none => simp [hs, hp] at hrun
        | some pv =>
          simp only [hs, hp, Option.some.injEq, Prod.mk.injEq] at hrun
          exact ⟨[Baby.mergeDeviceInfo sv pv], hrun.1.symm⟩

end GoHeap

/-- Any address that holds a value is in range. -/
theorem getElem?_lt_length {α : Type} (l : List α) (n : Nat) (a : α)
    (hl : l[n]? = some a) : n < l.length := by
  by_contra hn
  rw [List.getElem?_eq_none (Nat.le_of_not_lt hn)] at hl
  exact Option.noConfusion hl

/-- C9: `State.Merge` is copy-on-write.  Whenever the merge runs on a heap,
every previously allocated record — in particular the input state and patch
— is left exactly as it was (the heaps only grow), and the returned address
is freshly allocated when the merge reports a change and is the input
state's own address otherwise, so callers holding a reference to the prior
record continue to observe its old field values. -/
theorem c9_merge_copy_on_write
    (h h' : GoHeap.Heap) (sa pa ra : Nat) (changed : Bool)
    (hrun : GoHeap.mergeGoHeap h sa pa = some (h', ra, changed)) :
    (∀ i, i < h.states.length → h'.states[i]? = h.states[i]?)
    ∧ (∀ j, j < h.dis.length → h'.dis[j]? = h.dis[j]?)
    ∧ (changed = true → ra = h.states.length ∧ h.states[ra]? = none)
    ∧ (changed = false → ra = sa ∧ h'.states[ra]? = h.states[sa]?) := by
  unfold GoHeap.mergeGoHeap at hrun
  cases hs : h.states[sa]? with
  | none => rw [hs] at hrun; exact Option.noConfusion hrun
  | some s =>
    cases hp : h.states[pa]? with
    | none => rw [hs, hp] at hrun; exact Option.noConfusion hrun
    | some p =>
      rw [hs, hp] at hrun
      dsimp only at hrun
      cases hd : GoHeap.diMergeHeap h.dis s.deviceInfo p.deviceInfo with
      | none => rw [hd] at hrun; exact Option.noConfusion hrun
      | some res =>
        obtain ⟨dis', diField, diChanged⟩ := res
        rw [hd] at hrun
        dsimp only at hrun
        simp only [Option.some.injEq, Prod.mk.injEq] at hrun
        obtain ⟨hheap, hra, hch⟩ := hrun
        obtain ⟨t, ht⟩ := GoHeap.diMergeHeap_extends h.dis s.deviceInfo p.deviceInfo
          dis' diField diChanged hd
        have hsalt : sa < h.states.length := getElem?_lt_length _ _ _ hs
        refine ⟨?_, ?_, ?_, ?_⟩
        · intro i hi
          rw [← hheap]
          exact List.getElem?_append_left hi
        · intro j hj
          rw [← hheap]
          simp only [ht]
          exact List.getElem?_append_left hj
        · intro hc
          rw [hc] at hch
          rw [if_pos hch] at hra
          refine ⟨hra.symm, ?_⟩
          rw [← hra]
          exact List.getElem?_eq_none (Nat.le_refl _)
        · intro hc
          rw [hc] at hch
          have hne : ¬((Baby.mergePtrField s.streamState p.streamState).2
              || (Baby.mergePtrField s.streamRequestState p.streamRequestState).2
              || (Baby.mergePtrField s.isWebsocketAlive p.isWebsocketAlive).2
              || (Baby.mergePtrField s.lastVideoPacketTime p.lastVideoPacketTime).2
              || (Baby.mergePtrField s.motionTimestamp p.motionTimestamp).2
              || (Baby.mergePtrField s.soundTimestamp p.soundTimestamp).2
              || (Baby.mergePtrField s.temperature p.temperature).2
              || (Baby.mergePtrField s.isNight p.isNight).2
              || (Baby.mergePtrField s.temperatureMilli p.temperatureMilli).2
              || (Baby.mergePtrField s.humidityMilli p.humidityMilli).2
              || (Baby.mergePtrField s.nightLight p.nightLight).2
              || (Baby.mergePtrField s.standby p.standby).2
              || diChanged) = true := by
            rw [hch]; exact Bool.false_ne_true
          rw [if_neg hne] at hra
          refine ⟨hra.symm, ?_⟩
          rw [← hra, ← hheap]
          rw [List.getElem?_append_left hsalt]
          exact hs

namespace GoHeap

/-- A two-record heap: an empty state at address 0, a patch carrying a
temperature at address 1. -/
def c9exHeap : Heap := { states := [{}, { temperatureMilli := some 100 }], dis := [] }

/-- The heap after merging address 1 into address 0: the fresh merged record
sits at address 2, the originals untouched. -/
def c9exOut : Heap :=
  { states := [{}, { temperatureMilli := some 100 }, { temperatureMilli := some 100 }], dis := [] }

end GoHeap

/-- Witness for C9 at a concrete heap: merging the temperature patch at
address 1 into the empty state at address 0 leaves both inputs unchanged and
returns the fresh address 2. -/
theorem c9_merge_copy_on_write_witness :
    (∀ i, i < GoHeap.c9exHeap.states.length →
      GoHeap.c9exOut.states[i]? = GoHeap.c9exHeap.states[i]?)
    ∧ (true = true → 2 = GoHeap.c9exHeap.states.length ∧ GoHeap.c9exHeap.states[2]? = none) :=
  ⟨(c9_merge_copy_on_write GoHeap.c9exHeap GoHeap.c9exOut 0 1 2 true rfl).1,
   (c9_merge_copy_on_write GoHeap.c9exHeap GoHeap.c9exOut 0 1 2 true rfl).2.2.1⟩

namespace Proto

/-- Request types are opaque numeric codes. -/
abbrev RequestType := Nat

/-- `Response` protobuf fields the connection logic reads: echoed request id
and type, optional status code and status message. -/
structure Response where
  requestId : Nat
  requestType : RequestType
  statusCode : Option Nat := none
  statusMessage : String := ""
deriving DecidableEq

/-- State of the buffered (capacity 1) response channel `resC`. -/
inductive ChanState where
  | empty
  | full (r : Response)
  | closed
deriving DecidableEq

/-- `unhandledRequest` (websocket_conn.go lines 138-141): the request's type
and, standing in for the `HandleResponse` closure, the id of the channel the
closure captured. -/
structure UnhandledRequest where
  reqType : RequestType
  chanId : Nat
deriving DecidableEq

/-- `WebsocketConnection` state the request/response logic touches:
`lastRequestID`, the `resHandlers` map keyed by request id, and the heap of
response channels the closures capture. -/
structure ConnState where
  lastRequestID : Nat
  resHandlers : List (Nat × UnhandledRequest)
  chans : List ChanState
deriving DecidableEq

/-- The fresh connection of `NewWebsocketConnection`. -/
def newConn : ConnState := { lastRequestID := 0, resHandlers := [], chans := [] }

/-- Go `delete(m, k)` on an association list. -/
def eraseKey (k : Nat) (l : List (Nat × UnhandledRequest)) : List (Nat × UnhandledRequest) :=
  l.filter (fun e => e.1 != k)

/-- `SendRequest` (websocket_conn.go lines 73-110) up to the awaiter: bump
`lastRequestID`, allocate the buffered response channel, record the pending
entry under the new id.  Returns (state, request id, channel id). -/
def sendRequest (c : ConnState) (reqType : RequestType) : ConnState × Nat × Nat :=
  let id := c.lastRequestID + 1
  let ch := c.chans.length
  ({ lastRequestID := id,
     resHandlers := (id, ⟨reqType, ch⟩) :: c.resHandlers,
     chans := c.chans ++ [ChanState.empty] }, id, ch)

/-- The `HandleResponse` closure body (websocket_conn.go lines 91-98): a
`select` that first tries to receive from `resC` — succeeding immediately if
the channel is closed (timeout already fired) or holds a buffered value —
and returns without sending in that case; only on an open empty channel does
the default branch deliver the response. -/
def handleResponseClosure (ch : ChanState) (r : Response) : ChanState :=
  match ch with
  | .closed => .closed
  | .full _ => .empty
  | .empty => .full r

/-- `handleResponse` (websocket_conn.go lines 143-158): look up the pending
entry by the response's echoed request id; if present and the echoed request
type matches the pending request's type, delete the entry and run its
`HandleResponse` closure; otherwise the response is ignored. -/
def handleResponse (c : ConnState) (r : Response) : ConnState :=
  match c.resHandlers.lookup r.requestId with
  | none => c
  | some u =>
    if r.requestType = u.reqType then
      { c with resHandlers := eraseKey r.requestId c.resHandlers,
               chans := c.chans.set u.chanId
                 (handleResponseClosure (c.chans.getD u.chanId .empty) r) }
    else c

/-- Result returned by the awaiter function. -/
inductive AwaitResult where
  | ok (r : Response)
  | err (r : Option Response) (msg : String)
deriving DecidableEq

/-- The awaiter's timeout branch (websocket_conn.go lines 116-118): the timer
fires, `resC` is closed, and the explicit timeout error is returned.  Note
the branch does not touch `resHandlers`. -/
def awaitTimeout (c : ConnState) (chanId : Nat) : ConnState × AwaitResult :=
  ({ c with chans := c.chans.set chanId .closed }, .err none "Request timeout")

/-- The awaiter's receive branch (websocket_conn.go lines 119-133), enabled
when the channel holds a buffered response: close the channel and map the
status code to the returned value/error. -/
def awaitReceive (c : ConnState) (chanId : Nat) (r : Response) : ConnState × AwaitResult :=
  ({ c with chans := c.chans.set chanId .closed },
   match r.statusCode with
   | none => .err (some r) "No status code received"
   | some sc =>
     if sc ≠ 200 then
       if r.statusMessage ≠ "" then .err (some r) r.statusMessage
       else .err (some r) "Unexpected status code"
     else .ok r)

/-- Erasing a key removes it from lookups. -/
theorem lookup_eraseKey (k : Nat) (l : List (Nat × UnhandledRequest)) :
    (eraseKey k l).lookup k = none := by
  induction l with
  | nil => rfl
  | cons e tl ih =>
    simp only [eraseKey, List.filter_cons]
    by_cases he : e.1 = k
    · simp only [he, bne_self_eq_false, Bool.false_eq_true, if_false]
      simpa [eraseKey] using ih
    · have hne : (e.1 != k) = true := by simp [he]
      simp only [hne, if_true]
      rw [List.lookup_cons]
      simp only [show (k == e.1) = false by simp [Ne.symm he]]
      simpa [eraseKey] using ih

/-- Erasing one key leaves other keys' lookups unchanged. -/
theorem lookup_eraseKey_ne (k k' : Nat) (l : List (Nat × UnhandledRequest)) (hne : k' ≠ k) :
    (eraseKey k l).lookup k' = l.lookup k' := by
  induction l with
  | nil => rfl
  | cons e tl ih =>
    simp only [eraseKey, List.filter_cons]
    by_cases he : e.1 = k
    · have h1 : (e.1 != k) = false := by simp [he]
      simp only [h1, Bool.false_eq_true, if_false]
      rw [List.lookup_cons]
      have h2 : (k' == e.1) = false := by simp [he, hne]
      simp only [h2]
      simpa [eraseKey] using ih
    · have h2 : (e.1 != k) = true := by simp [he]
      simp only [h2, if_true]
      rw [List.lookup_cons, List.lookup_cons]
      cases h3 : (k' == e.1) with
      | true => rfl
      | false => simpa [eraseKey] using ih

end Proto

namespace Proto

/-- A response whose id is not pending is silently ignored. -/
theorem handleResponse_no_entry (c : ConnState) (r : Response)
    (h : c.resHandlers.lookup r.requestId = none) : handleResponse c r = c := by
  unfold handleResponse
  rw [h]

/-- A response whose id is pending under a different request type is silently
ignored. -/
theorem handleResponse_wrong_type (c : ConnState) (r : Response) (u : UnhandledRequest)
    (h : c.resHandlers.lookup r.requestId = some u) (ht : r.requestType ≠ u.reqType) :
    handleResponse c r = c := by
  unfold handleResponse
  rw [h]
  exact if_neg ht

/-- A matching response deletes the pending entry and runs its closure. -/
theorem handleResponse_matched (c : ConnState) (r : Response) (u : UnhandledRequest)
    (h : c.resHandlers.lookup r.requestId = some u) (ht : r.requestType = u.reqType) :
    handleResponse c r =
      { c with resHandlers := eraseKey r.requestId c.resHandlers,
               chans := c.chans.set u.chanId
                 (handleResponseClosure (c.chans.getD u.chanId .empty) r) } := by
  unfold handleResponse
  rw [h]
  exact if_pos ht

end Proto

/-- C3 counterexample: issue one request on a fresh connection and let its
awaiter time out.  The claim says the pending entry recorded under the
request id is discarded on timeout; in the code the timeout branch only
closes the response channel, and the entry for id 1 is still in
`resHandlers` afterwards. -/
theorem c3_counterexample_timeout_keeps_pending_entry :
    ((Proto.awaitTimeout (Proto.sendRequest Proto.newConn 7).1
        (Proto.sendRequest Proto.newConn 7).2.2).1).resHandlers.lookup
      (Proto.sendRequest Proto.newConn 7).2.1 = some ⟨7, 0⟩ := by rfl

/-- C3 (amended): if the timeout elapses first the awaiter yields the
explicit "Request timeout" error and closes the response channel — the
pending entry itself is NOT discarded at timeout; it is removed only when a
matching response later arrives, and that late response resolves nothing
(the closed channel stays closed).  Out-of-order or unmatched responses
(unknown id, or known id with the wrong request type) are silently
ignored. -/
theorem c3_amended_timeout_behaviour :
    (∀ (c : Proto.ConnState) (ch : Nat),
      (Proto.awaitTimeout c ch).2 = .err none "Request timeout"
      ∧ (Proto.awaitTimeout c ch).1.resHandlers = c.resHandlers
      ∧ (ch < c.chans.length → (Proto.awaitTimeout c ch).1.chans[ch]? = some .closed))
    ∧ (∀ (c : Proto.ConnState) (r : Proto.Response) (u : Proto.UnhandledRequest),
        c.resHandlers.lookup r.requestId = some u →
        r.requestType = u.reqType →
        u.chanId < c.chans.length →
        c.chans.getD u.chanId .empty = .closed →
        (Proto.handleResponse c r).resHandlers.lookup r.requestId = none
        ∧ (Proto.handleResponse c r).chans = c.chans.set u.chanId .closed)
    ∧ (∀ (c : Proto.ConnState) (r : Proto.Response),
        c.resHandlers.lookup r.requestId = none → Proto.handleResponse c r = c)
    ∧ (∀ (c : Proto.ConnState) (r : Proto.Response) (u : Proto.UnhandledRequest),
        c.resHandlers.lookup r.requestId = some u →
        r.requestType ≠ u.reqType → Proto.handleResponse c r = c) := by
  refine ⟨?_, ?_, ?_, ?_⟩
  · intro c ch
    refine ⟨rfl, rfl, ?_⟩
    intro hch
    simp [Proto.awaitTimeout, List.getElem?_set, hch]
  · intro c r u hl ht hlen hch
    rw [List.getD_eq_getElem?_getD, List.getElem?_eq_getElem hlen] at hch
    rw [Proto.handleResponse_matched c r u hl ht]
    constructor
    · exact Proto.lookup_eraseKey _ _
    · simp only [List.getD_eq_getElem?_getD, List.getElem?_eq_getElem hlen]
      simp only [Option.getD_some] at hch ⊢
      rw [hch]
      rfl
  · exact Proto.handleResponse_no_entry
  · exact Proto.handleResponse_wrong_type

/-- Witness for the amended C3 at concrete inputs: a connection with one
pending entry whose channel was closed by the timeout; the late matching
response removes the entry and leaves the channel closed. -/
theorem c3_amended_timeout_behaviour_witness :
    ((Proto.handleResponse
        { lastRequestID := 1, resHandlers := [(1, ⟨7, 0⟩)], chans := [.closed] }
        { requestId := 1, requestType := 7 }).resHandlers.lookup 1 = none
      ∧ (Proto.handleResponse
          { lastRequestID := 1, resHandlers := [(1, ⟨7, 0⟩)], chans := [.closed] }
          { requestId := 1, requestType := 7 }).chans = [Proto.ChanState.closed].set 0 .closed)
    ∧ (Proto.awaitTimeout Proto.newConn 0).2 = .err none "Request timeout" :=
  ⟨(c3_amended_timeout_behaviour).2.1
      { lastRequestID := 1, resHandlers := [(1, ⟨7, 0⟩)], chans := [.closed] }
      { requestId := 1, requestType := 7 } ⟨7, 0⟩ rfl rfl (by decide) rfl,
   ((c3_amended_timeout_behaviour).1 Proto.newConn 0).1⟩

/-- C4: every pending request is resolved at most once.  The first response
whose echoed id and request type match the pending entry delivers the
response into the awaiter's channel and removes the entry; replaying the
same response afterwards is a no-op (the entry is gone), and a matching
response that arrives after the awaiter already returned (channel closed by
the timeout) delivers nothing — the channel stays closed, so the awaiter's
result is unchanged. -/
theorem c4_pending_request_resolved_at_most_once :
    (∀ (c : Proto.ConnState) (r : Proto.Response) (u : Proto.UnhandledRequest),
      c.resHandlers.lookup r.requestId = some u →
      r.requestType = u.reqType →
      c.chans.getD u.chanId .empty = .empty →
      u.chanId < c.chans.length →
      (Proto.handleResponse c r).resHandlers.lookup r.requestId = none
      ∧ (Proto.handleResponse c r).chans[u.chanId]? = some (.full r))
    ∧ (∀ (c : Proto.ConnState) (r : Proto.Response) (u : Proto.UnhandledRequest),
        c.resHandlers.lookup r.requestId = some u →
        r.requestType = u.reqType →
        Proto.handleResponse (Proto.handleResponse c r) r = Proto.handleResponse c r)
    ∧ (∀ (c : Proto.ConnState) (r : Proto.Response) (u : Proto.UnhandledRequest),
        c.resHandlers.lookup r.requestId = some u →
        r.requestType = u.reqType →
        c.chans.getD u.chanId .empty = .closed →
        u.chanId < c.chans.length →
        (Proto.handleResponse c r).chans[u.chanId]? = some .closed) := by
  refine ⟨?_, ?_, ?_⟩
  · intro c r u hl ht hch hlen
    rw [List.getD_eq_getElem?_getD, List.getElem?_eq_getElem hlen] at hch
    simp only [Option.getD_some] at hch
    rw [Proto.handleResponse_matched c r u hl ht]
    refine ⟨Proto.lookup_eraseKey _ _, ?_⟩
    simp [hch, Proto.handleResponseClosure, List.getElem?_set, hlen]
  · intro c r u hl ht
    apply Proto.handleResponse_no_entry
    rw [Proto.handleResponse_matched c r u hl ht]
    exact Proto.lookup_eraseKey _ _
  · intro c r u hl ht hch hlen
    rw [List.getD_eq_getElem?_getD, List.getElem?_eq_getElem hlen] at hch
    simp only [Option.getD_some] at hch
    rw [Proto.handleResponse_matched c r u hl ht]
    simp [hch, Proto.handleResponseClosure, List.getElem?_set, hlen]

/-- Witness for C4 at concrete inputs: one pending entry with an empty
channel; the matching response resolves it once and replaying it changes
nothing. -/
theorem c4_pending_request_resolved_at_most_once_witness :
    ((Proto.handleResponse
        { lastRequestID := 1, resHandlers := [(1, ⟨7, 0⟩)], chans := [.empty] }
        { requestId := 1, requestType := 7 }).resHandlers.lookup 1 = none
      ∧ (Proto.handleResponse
          { lastRequestID := 1, resHandlers := [(1, ⟨7, 0⟩)], chans := [.empty] }
          { requestId := 1, requestType := 7 }).chans[0]?
        = some (.full { requestId := 1, requestType := 7 }))
    ∧ Proto.handleResponse
        (Proto.handleResponse
          { lastRequestID := 1, resHandlers := [(1, ⟨7, 0⟩)], chans := [.empty] }
          { requestId := 1, requestType := 7 })
        { requestId := 1, requestType := 7 }
      = Proto.handleResponse
          { lastRequestID := 1, resHandlers := [(1, ⟨7, 0⟩)], chans := [.empty] }
          { requestId := 1, requestType := 7 } :=
  ⟨(c4_pending_request_resolved_at_most_once).1
      { lastRequestID := 1, resHandlers := [(1, ⟨7, 0⟩)], chans := [.empty] }
      { requestId := 1, requestType := 7 } ⟨7, 0⟩ rfl rfl rfl (by decide),
   (c4_pending_request_resolved_at_most_once).2.1
      { lastRequestID := 1, resHandlers := [(1, ⟨7, 0⟩)], chans := [.empty] }
      { requestId := 1, requestType := 7 } ⟨7, 0⟩ rfl rfl⟩

namespace Baby

/-- `SetStreamState` (state.go): sets the field to the given value. -/
def SetStreamState (s : State) (v : StreamState) : State := { s with streamState := some v }

/-- `SetLastVideoPacketTime` (state.go): sets the field to the given value. -/
def SetLastVideoPacketTime (s : State) (v : Int) : State := { s with lastVideoPacketTime := some v }

/-- `SetStreamRequestState` (state.go): sets the field to the given value. -/
def SetStreamRequestState (s : State) (v : StreamRequestState) : State :=
  { s with streamRequestState := some v }

/-- `GetIsWebsocketAlive` (state.go): value if non-nil, else false. -/
def GetIsWebsocketAlive (s : State) : Bool := s.isWebsocketAlive.getD false

/-- `GetStreamRequestState` (state.go): value if non-nil, else NotRequested. -/
def GetStreamRequestState (s : State) : StreamRequestState :=
  s.streamRequestState.getD .notRequested

/-- `GetStreamState` (state.go): value if non-nil, else Unknown. -/
def GetStreamState (s : State) : StreamState := s.streamState.getD .unknown

/-- A patch field that is present survives into the merged field of
`mergePtrField`. -/
theorem mergePtrField_fst_some {α : Type} [DecidableEq α] (c : Option α) (v : α) :
    (mergePtrField c (some v)).1 = some v := by
  cases c with
  | none => rfl
  | some cv =>
    by_cases h : cv = v
    · simp [mergePtrField, h]
    · simp [mergePtrField, h]

/-- A field that did not set `changed` kept the current value. -/
theorem mergePtrField_fst_of_not_changed {α : Type} [DecidableEq α] (c p : Option α)
    (h : (mergePtrField c p).2 = false) : (mergePtrField c p).1 = c := by
  cases p with
  | none => rfl
  | some pv =>
    cases c with
    | none => exact absurd h (by simp [mergePtrField])
    | some cv =>
      by_cases he : cv = pv
      · simp [mergePtrField, he]
      · exact absurd h (by simp [mergePtrField, he])

/-- The merged record's stream-state field is exactly what the per-field
loop computed, whether or not the merge reported a change. -/
theorem Merge_streamState (x p : State) :
    (Merge x p).streamState = (mergePtrField x.streamState p.streamState).1 := by
  unfold Merge mergeWithChanged
  dsimp only
  split
  · rfl
  · next h =>
    simp only [Bool.not_eq_true, Bool.or_eq_false_iff] at h
    exact (mergePtrField_fst_of_not_changed _ _ h.1.1.1.1.1.1.1.1.1.1.1.1).symm

/-- The merged record's last-video-packet-time field is exactly what the
per-field loop computed. -/
theorem Merge_lastVideoPacketTime (x p : State) :
    (Merge x p).lastVideoPacketTime
      = (mergePtrField x.lastVideoPacketTime p.lastVideoPacketTime).1 := by
  unfold Merge mergeWithChanged
  dsimp only
  split
  · rfl
  · next h =>
    simp only [Bool.not_eq_true, Bool.or_eq_false_iff] at h
    exact (mergePtrField_fst_of_not_changed _ _ h.1.1.1.1.1.1.1.1.1.2).symm

end Baby

namespace Rtmp

/-- An RTMP broadcaster: the per-subscriber packet queues, each either open
(`true`) or closed (`false`).  The broadcaster implementation file is not
under src/; only the subscriber set and its open/closed state are needed by
the handler claims. -/
structure BState where
  subs : List Bool
deriving DecidableEq

/-- Modelled from the spec: `newBroadcaster` (broadcaster file not under
src/) creates a publisher handle with an empty subscriber set. -/
def newBroadcaster : BState := { subs := [] }

/-- Modelled from the spec: `broadcaster.newSubscriber` (not under src/)
creates a buffered packet queue, adds it to the broadcaster's subscriber
set, and returns its handle. -/
def bNewSubscriber (b : BState) : BState × Nat :=
  ({ subs := b.subs ++ [true] }, b.subs.length)

/-- Modelled from the spec: `broadcaster.closeSubscribers` (not under src/)
closes every subscriber's packet queue. -/
def closeSubscribers (b : BState) : BState := { subs := b.subs.map (fun _ => false) }

/-- `rtmpHandler` state: `broadcastersByUID` maps a device UID to the address
of its active broadcaster; the broadcaster heap gives identity to the Go
pointer comparison in `closePublisher`. -/
structure RtmpState where
  registry : List (String × Nat)
  broadcasters : List BState
deriving DecidableEq

/-- Go `delete(m, uid)` on the registry. -/
def eraseReg (uid : String) (l : List (String × Nat)) : List (String × Nat) :=
  l.filter (fun e => e.1 != uid)

/-- `rtmpHandler.getNewSubscriber` (part_007 lines 133-145): look up the
broadcaster for the UID; if there is none return a nil handle and nil
unsubscribe; otherwise create a new subscriber on that broadcaster and
return its handle (broadcaster address, subscriber index). -/
def getNewSubscriber (s : RtmpState) (uid : String) : RtmpState × Option (Nat × Nat) :=
  match s.registry.lookup uid with
  | none => (s, none)
  | some bAddr =>
    let b := s.broadcasters.getD bAddr newBroadcaster
    let r := bNewSubscriber b
    ({ s with broadcasters := s.broadcasters.set bAddr r.1 }, some (bAddr, r.2))

/-- Outcome of the subscriber branch of `rtmpHandler.handleConnection`. -/
inductive SubscriberOutcome where
  | connClosed
  | streaming (bAddr subIdx : Nat)
deriving DecidableEq

/-- The subscriber branch of `rtmpHandler.handleConnection` (part_007 lines
87-95): a nil subscriber handle means no publisher is registered yet and the
connection is closed; otherwise the connection streams from the returned
subscriber. -/
def handleSubscriberConnection (s : RtmpState) (uid : String) :
    RtmpState × SubscriberOutcome :=
  match getNewSubscriber s uid with
  | (s', none) => (s', .connClosed)
  | (s', some h) => (s', .streaming h.1 h.2)

/-- `rtmpHandler.closePublisher` (part_007 lines 147-157): delete the
registry entry only if it still maps to this broadcaster, then close all of
this broadcaster's subscribers. -/
def closePublisher (s : RtmpState) (uid : String) (bAddr : Nat) : RtmpState :=
  let registry' :=
    match s.registry.lookup uid with
    | some curr => if curr = bAddr then eraseReg uid s.registry else s.registry
    | none => s.registry
  { registry := registry',
    broadcasters := s.broadcasters.set bAddr
      (closeSubscribers (s.broadcasters.getD bAddr newBroadcaster)) }

/-- The per-UID state store, as an association list. -/
abbrev StateStore := List (String × Baby.State)

/-- Modelled from the spec: `StateManager.GetBabyState` (not under src/)
never returns nil — an absent UID yields a fresh empty record. -/
def GetBabyState (st : StateStore) (uid : String) : Baby.State :=
  (st.lookup uid).getD Baby.NewState

/-- Modelled from the spec: `StateManager.Update` (not under src/) performs
the field-level merge of the patch into the stored state and stores the
result. -/
def Update (st : StateStore) (uid : String) (patch : Baby.State) : StateStore :=
  (uid, Baby.Merge (GetBabyState st uid) patch) :: st.filter (fun e => e.1 != uid)

/-- The publisher-error branch of `rtmpHandler.handleConnection` (part_007
lines 75-80): on a failed `ReadPacket` merge a state update setting stream
state Unhealthy and last-video-packet-time 0, then `closePublisher`. -/
def onPublisherReadError (s : RtmpState) (store : StateStore) (uid : String)
    (publisher : Nat) : RtmpState × StateStore :=
  let store' := Update store uid
    (Baby.SetLastVideoPacketTime (Baby.SetStreamState Baby.NewState .unhealthy) 0)
  (closePublisher s uid publisher, store')

/-- Registry erasure removes the UID from lookups. -/
theorem lookup_eraseReg (uid : String) (l : List (String × Nat)) :
    (eraseReg uid l).lookup uid = none := by
  induction l with
  | nil => rfl
  | cons e tl ih =>
    simp only [eraseReg, List.filter_cons]
    by_cases he : e.1 = uid
    · simp only [he, bne_self_eq_false, Bool.false_eq_true, if_false]
      simpa [eraseReg] using ih
    · have hne : (e.1 != uid) = true := by simp [he]
      simp only [hne, if_true]
      rw [List.lookup_cons]
      simp only [show (uid == e.1) = false by simp [Ne.symm he]]
      simpa [eraseReg] using ih

end Rtmp

/-- C5: subscribing to a UID with no registered publisher returns a nil
handle, not an error, and the handler closes the subscriber connection;
subscribing to a UID with a registered publisher returns a non-nil handle
wired to that publisher (the handle names the registered broadcaster's
address, whose subscriber set gains the new open queue). -/
theorem c5_subscribe_nil_without_publisher :
    (∀ (s : Rtmp.RtmpState) (uid : String),
      s.registry.lookup uid = none →
      Rtmp.getNewSubscriber s uid = (s, none)
      ∧ (Rtmp.handleSubscriberConnection s uid).2 = .connClosed)
    ∧ (∀ (s : Rtmp.RtmpState) (uid : String) (bAddr : Nat) (b : Rtmp.BState),
        s.registry.lookup uid = some bAddr →
        s.broadcasters[bAddr]? = some b →
        (Rtmp.getNewSubscriber s uid).2 = some (bAddr, b.subs.length)
        ∧ (Rtmp.getNewSubscriber s uid).1.broadcasters[bAddr]? = some ⟨b.subs ++ [true]⟩
        ∧ (Rtmp.handleSubscriberConnection s uid).2 = .streaming bAddr b.subs.length) := by
  constructor
  · intro s uid h
    constructor
    · unfold Rtmp.getNewSubscriber
      rw [h]
    · unfold Rtmp.handleSubscriberConnection Rtmp.getNewSubscriber
      rw [h]
  · intro s uid bAddr b hreg hb
    have hlt : bAddr < s.broadcasters.length := getElem?_lt_length _ _ _ hb
    have hgd : s.broadcasters.getD bAddr Rtmp.newBroadcaster = b := by
      rw [List.getD_eq_getElem?_getD, hb]
      rfl
    have hmain : Rtmp.getNewSubscriber s uid
        = ({ s with broadcasters := s.broadcasters.set bAddr ⟨b.subs ++ [true]⟩ },
           some (bAddr, b.subs.length)) := by
      unfold Rtmp.getNewSubscriber
      rw [hreg]
      dsimp only
      rw [hgd]
      rfl
    refine ⟨by rw [hmain], ?_, ?_⟩
    · rw [hmain]
      simp [List.getElem?_set, hlt]
    · unfold Rtmp.handleSubscriberConnection
      rw [hmain]

/-- Witness for C5: a registry with one publisher for "abc"; subscribing to
"zzz" yields a nil handle and a closed connection, subscribing to "abc"
yields a handle wired to broadcaster 0. -/
theorem c5_subscribe_nil_without_publisher_witness :
    (Rtmp.getNewSubscriber ⟨[("abc", 0)], [⟨[]⟩]⟩ "zzz" = (⟨[("abc", 0)], [⟨[]⟩]⟩, none)
      ∧ (Rtmp.handleSubscriberConnection ⟨[("abc", 0)], [⟨[]⟩]⟩ "zzz").2 = .connClosed)
    ∧ (Rtmp.getNewSubscriber ⟨[("abc", 0)], [⟨[]⟩]⟩ "abc").2 = some (0, 0) :=
  ⟨(c5_subscribe_nil_without_publisher).1 ⟨[("abc", 0)], [⟨[]⟩]⟩ "zzz" (by decide),
   ((c5_subscribe_nil_without_publisher).2 ⟨[("abc", 0)], [⟨[]⟩]⟩ "abc" 0 ⟨[]⟩
      (by decide) rfl).1⟩

/-- C6: when the active publisher's packet read fails for a UID, the handler
merges a state update carrying Unhealthy stream liveness and zero
last-video-packet-time, removes the broadcaster registry entry for the UID
only if it still maps to this publisher (a different registered publisher is
left alone), and closes every subscriber of this publisher. -/
theorem c6_publisher_read_error_effects :
    ∀ (s : Rtmp.RtmpState) (store : Rtmp.StateStore) (uid : String) (pubAddr : Nat)
      (b : Rtmp.BState),
      s.broadcasters[pubAddr]? = some b →
      ((Rtmp.GetBabyState (Rtmp.onPublisherReadError s store uid pubAddr).2 uid).streamState
          = some .unhealthy
        ∧ (Rtmp.GetBabyState
            (Rtmp.onPublisherReadError s store uid pubAddr).2 uid).lastVideoPacketTime
          = some 0)
      ∧ (s.registry.lookup uid = some pubAddr →
          (Rtmp.onPublisherReadError s store uid pubAddr).1.registry.lookup uid = none)
      ∧ (∀ other, s.registry.lookup uid = some other → other ≠ pubAddr →
          (Rtmp.onPublisherReadError s store uid pubAddr).1.registry = s.registry)
      ∧ (Rtmp.onPublisherReadError s store uid pubAddr).1.broadcasters[pubAddr]?
          = some (Rtmp.closeSubscribers b) := by
  intro s store uid pubAddr b hb
  have hlt : pubAddr < s.broadcasters.length := getElem?_lt_length _ _ _ hb
  have hgd : s.broadcasters.getD pubAddr Rtmp.newBroadcaster = b := by
    rw [List.getD_eq_getElem?_getD, hb]
    rfl
  have hstore : (Rtmp.onPublisherReadError s store uid pubAddr).2
      = (uid, Baby.Merge (Rtmp.GetBabyState store uid)
          (Baby.SetLastVideoPacketTime (Baby.SetStreamState Baby.NewState .unhealthy) 0))
        :: store.filter (fun e => e.1 != uid) := rfl
  refine ⟨?_, ?_, ?_, ?_⟩
  · rw [hstore]
    have hhd : Rtmp.GetBabyState
        ((uid, Baby.Merge (Rtmp.GetBabyState store uid)
            (Baby.SetLastVideoPacketTime (Baby.SetStreamState Baby.NewState .unhealthy) 0))
          :: store.filter (fun e => e.1 != uid)) uid
        = Baby.Merge (Rtmp.GetBabyState store uid)
            (Baby.SetLastVideoPacketTime (Baby.SetStreamState Baby.NewState .unhealthy) 0) := by
      unfold Rtmp.GetBabyState
      rw [List.lookup_cons]
      simp
    rw [hhd]
    constructor
    · rw [Baby.Merge_streamState]
      exact Baby.mergePtrField_fst_some _ _
    · rw [Baby.Merge_lastVideoPacketTime]
      exact Baby.mergePtrField_fst_some _ _
  · intro hreg
    show (Rtmp.closePublisher s uid pubAddr).registry.lookup uid = none
    unfold Rtmp.closePublisher
    rw [hreg]
    dsimp only
    rw [if_pos rfl]
    exact Rtmp.lookup_eraseReg uid s.registry
  · intro other hreg hne
    show (Rtmp.closePublisher s uid pubAddr).registry = s.registry
    unfold Rtmp.closePublisher
    rw [hreg]
    dsimp only
    rw [if_neg hne]
  · show (Rtmp.closePublisher s uid pubAddr).broadcasters[pubAddr]?
      = some (Rtmp.closeSubscribers b)
    unfold Rtmp.closePublisher
    dsimp only
    rw [hgd]
    simp [List.getElem?_set, hlt]

/-- Witness for C6 at a concrete handler state: one publisher at address 0
registered for "abc" with two open subscribers. -/
theorem c6_publisher_read_error_effects_witness :
    ((Rtmp.GetBabyState
        (Rtmp.onPublisherReadError ⟨[("abc", 0)], [⟨[true, true]⟩]⟩ [] "abc" 0).2
        "abc").streamState = some .unhealthy
      ∧ (Rtmp.GetBabyState
          (Rtmp.onPublisherReadError ⟨[("abc", 0)], [⟨[true, true]⟩]⟩ [] "abc" 0).2
          "abc").lastVideoPacketTime = some 0)
    ∧ (Rtmp.onPublisherReadError ⟨[("abc", 0)], [⟨[true, true]⟩]⟩ [] "abc" 0).1.registry.lookup
        "abc" = none
    ∧ (Rtmp.onPublisherReadError ⟨[("abc", 0)], [⟨[true, true]⟩]⟩ [] "abc" 0).1.broadcasters[0]?
        = some (Rtmp.closeSubscribers ⟨[true, true]⟩) :=
  ⟨(c6_publisher_read_error_effects ⟨[("abc", 0)], [⟨[true, true]⟩]⟩ [] "abc" 0
      ⟨[true, true]⟩ rfl).1,
   (c6_publisher_read_error_effects ⟨[("abc", 0)], [⟨[true, true]⟩]⟩ [] "abc" 0
      ⟨[true, true]⟩ rfl).2.1 (by decide),
   (c6_publisher_read_error_effects ⟨[("abc", 0)], [⟨[true, true]⟩]⟩ [] "abc" 0
      ⟨[true, true]⟩ rfl).2.2.2⟩

namespace HLS

/-- `StreamStatus` constants from the streaming package. -/
inductive StreamStatus where
  | starting
  | connecting
  | streaming
  | error
  | stopped
deriving DecidableEq

/-- Error type constants (`ErrorTypeRTMPConnection` etc.). -/
inductive ErrType where
  | rtmpConnection
  | rtmpTimeout
  | ffmpegFailed
  | networkError
  | unknown
deriving DecidableEq

/-- `StreamError` record: type, message, code (the raw error text). -/
structure StreamError where
  type : ErrType
  message : String
  code : String
deriving DecidableEq

/-- The `HLSTranscoder` fields the retry/status logic reads and writes. -/
structure HLSTranscoder where
  babyUID : String
  isRunning : Bool
  status : StreamStatus
  lastError : Option StreamError
  retryCount : Nat
  maxRetries : Nat
  retryDelaySeconds : Nat
deriving DecidableEq

/-- `NewHLSTranscoder`: stopped, not running, maxRetries 5, retryDelay 10s. -/
def NewHLSTranscoder (babyUID : String) : HLSTranscoder where
  babyUID := babyUID
  isRunning := false
  status := .stopped
  lastError := none
  retryCount := 0
  maxRetries := 5
  retryDelaySeconds := 10

/-- Whether `pat` occurs at the start of `s`. -/
def listHasAtStart : List Char → List Char → Bool
  | [], _ => true
  | _ :: _, [] => false
  | p :: ps, c :: cs => p == c && listHasAtStart ps cs

/-- Whether `pat` occurs contiguously anywhere in `s`. -/
def listHasSub (pat s : List Char) : Bool :=
  match s with
  | [] => listHasAtStart pat []
  | _ :: cs => listHasAtStart pat s || listHasSub pat cs

/-- Go `strings.Contains`. -/
def strContains (s pat : String) : Bool := listHasSub pat.toList s.toList

/-- `setError`: status becomes Error and the last-error record is filled. -/
def setError (h : HLSTranscoder) (t : ErrType) (message code : String) : HLSTranscoder :=
  { h with status := .error, lastError := some ⟨t, message, code⟩ }

/-- `classifyAndSetError`: inspect the process error text and classify it;
`elapsedSeconds` is `time.Since(h.startTime)` at classification time. -/
def classifyAndSetError (h : HLSTranscoder) (elapsedSeconds : Nat) (errStr : String) :
    HLSTranscoder :=
  if strContains errStr "Connection refused" || strContains errStr "Connection reset"
      || strContains errStr "No route to host" then
    setError h .rtmpConnection "Cannot connect to RTMP server" errStr
  else if strContains errStr "Connection timed out" || strContains errStr "timeout" then
    setError h .rtmpTimeout "RTMP connection timed out" errStr
  else if strContains errStr "Server error" || strContains errStr "403"
      || strContains errStr "404" then
    setError h .rtmpConnection "RTMP server rejected connection" errStr
  else if strContains errStr "exit status" then
    if elapsedSeconds < 10 then
      setError h .rtmpConnection "RTMP stream not available" errStr
    else
      setError h .networkError "Stream disconnected unexpectedly" errStr
  else
    setError h .unknown "FFmpeg process failed" errStr

/-- The connection/timeout/network classes, the only retryable ones. -/
def retryableClass (t : ErrType) : Bool :=
  match t with
  | .rtmpConnection | .rtmpTimeout | .networkError => true
  | _ => false

/-- `shouldRetry`: false once the retry counter reaches the maximum; true
only for the connection-related error classes. -/
def shouldRetry (h : HLSTranscoder) : Bool :=
  if h.retryCount ≥ h.maxRetries then false
  else
    match h.lastError with
    | some e =>
      match e.type with
      | .rtmpConnection | .rtmpTimeout | .networkError => true
      | _ => false
    | none => false

/-- `scheduleRetry` (the part that runs before the delayed goroutine):
increments the retry counter; the restart itself is armed to fire after
`retryDelaySeconds`. -/
def scheduleRetry (h : HLSTranscoder) : HLSTranscoder :=
  { h with retryCount := h.retryCount + 1 }

/-- `monitor`'s deferred cleanup: `isRunning = false`, and the status becomes
Stopped unless it is already Error. -/
def monitorDefer (h : HLSTranscoder) : HLSTranscoder :=
  { h with isRunning := false,
           status := if h.status ≠ .error then .stopped else h.status }

/-- The process-exit path of `monitor` (part_010): a nil exit error (clean
exit or stop request) just runs the deferred cleanup; an exit error is
classified and recorded, then a retry is scheduled when `shouldRetry` allows
it.  Returns the transcoder and whether a retry was scheduled. -/
def monitorProcessExit (h : HLSTranscoder) (elapsedSeconds : Nat) (exitErr : Option String) :
    HLSTranscoder × Bool :=
  match exitErr with
  | none => (monitorDefer h, false)
  | some e =>
    let h1 := classifyAndSetError h elapsedSeconds e
    if shouldRetry h1 then (monitorDefer (scheduleRetry h1), true)
    else (monitorDefer h1, false)

/-- `GetStatus`: current status and last error. -/
def GetStatus (h : HLSTranscoder) : StreamStatus × Option StreamError :=
  (h.status, h.lastError)

/-- Every classification is some `setError h t m errStr`. -/
theorem classifyAndSetError_eq (h : HLSTranscoder) (el : Nat) (e : String) :
    ∃ t m, classifyAndSetError h el e = setError h t m e := by
  unfold classifyAndSetError
  split_ifs <;> exact ⟨_, _, rfl⟩

/-- `shouldRetry` after a classification is exactly "retryable class and
counter strictly below the maximum". -/
theorem shouldRetry_setError (h : HLSTranscoder) (t : ErrType) (m e : String) :
    shouldRetry (setError h t m e)
      = (decide (h.retryCount < h.maxRetries) && retryableClass t) := by
  unfold shouldRetry setError
  dsimp only
  by_cases hc : h.retryCount ≥ h.maxRetries
  · rw [if_pos hc, decide_eq_false (Nat.not_lt.mpr hc), Bool.false_and]
  · rw [if_neg hc, decide_eq_true (Nat.lt_of_not_le hc), Bool.true_and]
    cases t <;> rfl

end HLS

/-- C7: when the transcoder process exits with an error, the error is
classified and recorded; for the connection/timeout/network classes a retry
is scheduled (after the transcoder's fixed delay, counter incremented) for
each failure while the retry counter is below the maximum — a fresh
transcoder has maximum 5 and delay 10s — and otherwise (ffmpeg-failure or
unknown class, or exhausted retries) no retry is scheduled and `GetStatus`
reports terminal Error with the classified last error. -/
theorem c7_transcoder_retry_policy :
    (∀ uid : String, (HLS.NewHLSTranscoder uid).maxRetries = 5
      ∧ (HLS.NewHLSTranscoder uid).retryDelaySeconds = 10)
    ∧ (∀ (h : HLS.HLSTranscoder) (el : Nat) (e : String) (er : HLS.StreamError),
        (HLS.classifyAndSetError h el e).lastError = some er →
        ((HLS.retryableClass er.type = true → h.retryCount < h.maxRetries →
          HLS.monitorProcessExit h el (some e)
            = (HLS.monitorDefer (HLS.scheduleRetry (HLS.classifyAndSetError h el e)), true)
          ∧ (HLS.monitorProcessExit h el (some e)).1.retryCount = h.retryCount + 1
          ∧ (HLS.monitorProcessExit h el (some e)).1.retryDelaySeconds = h.retryDelaySeconds)
        ∧ ((HLS.retryableClass er.type = false ∨ h.maxRetries ≤ h.retryCount) →
          (HLS.monitorProcessExit h el (some e)).2 = false
          ∧ HLS.GetStatus (HLS.monitorProcessExit h el (some e)).1 = (.error, some er)))) := by
  refine ⟨fun uid => ⟨rfl, rfl⟩, ?_⟩
  intro h el e er hcl
  obtain ⟨t, m, heq⟩ := HLS.classifyAndSetError_eq h el e
  rw [heq] at hcl
  have her : er = ⟨t, m, e⟩ := by
    simp only [HLS.setError, Option.some.injEq] at hcl
    exact hcl.symm
  subst her
  constructor
  · intro hr hlt
    have hs : HLS.shouldRetry (HLS.setError h t m e) = true := by
      rw [HLS.shouldRetry_setError, decide_eq_true hlt, Bool.true_and]
      exact hr
    have hrun : HLS.monitorProcessExit h el (some e)
        = (HLS.monitorDefer (HLS.scheduleRetry (HLS.setError h t m e)), true) := by
      unfold HLS.monitorProcessExit
      dsimp only
      rw [heq]
      simp only [hs, if_true]
    refine ⟨by rw [hrun, heq], ?_, ?_⟩
    · rw [hrun]
      rfl
    · rw [hrun]
      rfl
  · intro hterm
    have hs : HLS.shouldRetry (HLS.setError h t m e) = false := by
      rw [HLS.shouldRetry_setError]
      rcases hterm with hr | hge
      · rw [hr, Bool.and_false]
      · rw [decide_eq_false (Nat.not_lt.mpr hge), Bool.false_and]
    have hrun : HLS.monitorProcessExit h el (some e)
        = (HLS.monitorDefer (HLS.setError h t m e), false) := by
      unfold HLS.monitorProcessExit
      dsimp only
      rw [heq]
      simp only [hs, Bool.false_eq_true, if_false]
    rw [hrun]
    exact ⟨rfl, rfl⟩

/-- Witness for C7: a fresh transcoder for "abc" whose process exits with a
"Connection refused" error (classified rtmp-connection) schedules a retry
with counter 1; the same error against a transcoder whose retries are
exhausted reports terminal Error. -/
theorem c7_transcoder_retry_policy_witness :
    ((HLS.NewHLSTranscoder "abc").maxRetries = 5
      ∧ (HLS.NewHLSTranscoder "abc").retryDelaySeconds = 10)
    ∧ (HLS.monitorProcessExit (HLS.NewHLSTranscoder "abc") 3
        (some "Connection refused")).1.retryCount = 0 + 1
    ∧ (HLS.monitorProcessExit
        { HLS.NewHLSTranscoder "abc" with retryCount := 5 } 3
        (some "Connection refused")).2 = false
    ∧ HLS.GetStatus (HLS.monitorProcessExit
        { HLS.NewHLSTranscoder "abc" with retryCount := 5 } 3
        (some "Connection refused")).1
      = (.error, some ⟨.rtmpConnection, "Cannot connect to RTMP server",
          "Connection refused"⟩) :=
  ⟨(c7_transcoder_retry_policy).1 "abc",
   ((c7_transcoder_retry_policy).2 (HLS.NewHLSTranscoder "abc") 3 "Connection refused"
      ⟨.rtmpConnection, "Cannot connect to RTMP server", "Connection refused"⟩
      (by decide)).1 (by decide) (by decide) |>.2.1,
   ((c7_transcoder_retry_policy).2 { HLS.NewHLSTranscoder "abc" with retryCount := 5 } 3
      "Connection refused"
      ⟨.rtmpConnection, "Cannot connect to RTMP server", "Connection refused"⟩
      (by decide)).2 (Or.inr (by decide)) |>.1,
   ((c7_transcoder_retry_policy).2 { HLS.NewHLSTranscoder "abc" with retryCount := 5 } 3
      "Connection refused"
      ⟨.rtmpConnection, "Cannot connect to RTMP server", "Connection refused"⟩
      (by decide)).2 (Or.inr (by decide)) |>.2⟩

namespace App

/-- `RTMPOpts` fields read by the retry logic. -/
structure RTMPOpts where
  listenAddr : String
  publicAddr : String
  autoStart : Bool
deriving DecidableEq

/-- The app options the retry logic reads: RTMP config, nil when RTMP is
disabled. -/
structure Opts where
  rtmp : Option RTMPOpts
deriving DecidableEq

/-- `retryInterval` in `startStreamingRetryMonitor` (app.go line 612). -/
def retryIntervalSeconds : Nat := 60

/-- `App.shouldRetryStreaming` (app.go lines 646-661): false when RTMP is
disabled or auto-start is off; otherwise requires websocket alive, stream
request failed, and stream not alive. -/
def shouldRetryStreaming (opts : Opts) (babyState : Baby.State) : Bool :=
  match opts.rtmp with
  | none => false
  | some r =>
    if !r.autoStart then false
    else
      Baby.GetIsWebsocketAlive babyState
        && decide (Baby.GetStreamRequestState babyState = .requestFailed)
        && decide (Baby.GetStreamState babyState ≠ .alive)

/-- One tick of `startStreamingRetryMonitor` (app.go lines 620-633): a retry
is launched exactly when `shouldRetryStreaming` holds and `getConnection`
returns a non-nil connection for the UID. -/
def retryTickFires (opts : Opts) (babyState : Baby.State) (connRegistered : Bool) : Bool :=
  shouldRetryStreaming opts babyState && connRegistered

end App

namespace Baby

/-- A state satisfying all three state-level retry conditions. -/
def c8State : State :=
  { streamState := some .unhealthy,
    streamRequestState := some .requestFailed,
    isWebsocketAlive := some true }

end Baby

/-- C8 counterexample: the claim says the monitor re-attempts streaming
exactly when the three state conditions hold.  At this input all three hold
(websocket alive, request failed, stream unhealthy) and a connection is
registered, yet no retry fires because the RTMP options are nil —
`shouldRetryStreaming` additionally requires RTMP to be enabled with
auto-start. -/
theorem c8_counterexample_rtmp_disabled :
    Baby.GetIsWebsocketAlive Baby.c8State = true
    ∧ Baby.GetStreamRequestState Baby.c8State = .requestFailed
    ∧ Baby.GetStreamState Baby.c8State ≠ .alive
    ∧ App.retryTickFires ⟨none⟩ Baby.c8State true = false := by
  refine ⟨rfl, rfl, ?_, rfl⟩
  decide

/-- C8 (amended): on each 60-second tick the monitor re-attempts local
streaming exactly when RTMP is configured with auto-start enabled, a live
connection is registered for the device, and the device's state satisfies:
websocket alive, Stream Request State = RequestFailed, and stream liveness ≠
Alive; if any of these fails, no retry is attempted on that tick. -/
theorem c8_amended_retry_condition :
    App.retryIntervalSeconds = 60
    ∧ (∀ (opts : App.Opts) (st : Baby.State) (conn : Bool),
        App.retryTickFires opts st conn = true
        ↔ (∃ r, opts.rtmp = some r ∧ r.autoStart = true)
          ∧ Baby.GetIsWebsocketAlive st = true
          ∧ Baby.GetStreamRequestState st = .requestFailed
          ∧ Baby.GetStreamState st ≠ .alive
          ∧ conn = true) := by
  refine ⟨rfl, ?_⟩
  intro opts st conn
  obtain ⟨rtmp⟩ := opts
  cases rtmp with
  | none =>
    simp [App.retryTickFires, App.shouldRetryStreaming]
  | some r =>
    cases har : r.autoStart with
    | false =>
      simp [App.retryTickFires, App.shouldRetryStreaming, har]
    | true =>
      simp only [App.retryTickFires, App.shouldRetryStreaming, har, Bool.not_true,
        Bool.false_eq_true, if_false, Bool.and_eq_true, decide_eq_true_eq,
        Option.some.injEq]
      constructor
      · rintro ⟨⟨⟨halive, hreq⟩, hstream⟩, hconn⟩
        exact ⟨⟨r, rfl, har⟩, halive, hreq, hstream, hconn⟩
      · rintro ⟨⟨r', hr', _⟩, halive, hreq, hstream, hconn⟩
        exact ⟨⟨⟨halive, hreq⟩, hstream⟩, hconn⟩

namespace Baby

/-- The character class of the `validUID` regexp `^[a-z0-9_-]+$`. -/
def validUIDChar (c : Char) : Bool :=
  ('a' ≤ c && c ≤ 'z') || ('0' ≤ c && c ≤ '9') || c == '_' || c == '-'

/-- `validUID.MatchString`: the anchored pattern `^[a-z0-9_-]+$` matches
exactly the nonempty strings made only of class characters. -/
def validUIDMatch (s : String) : Bool :=
  !s.toList.isEmpty && s.toList.all validUIDChar

/-- `EnsureValidBabyUID` (package baby): `some errorMessage` when the UID
does not match the regexp, `none` (no error) when it does. -/
def EnsureValidBabyUID (babyUID : String) : Option String :=
  if !(validUIDMatch babyUID) then
    some ("invalid baby UID " ++ babyUID ++ ": contains unsafe characters")
  else
    none

/-- Lowercase letters, digits, underscore and hyphen are disjoint from the
path and case characters the claim rules out. -/
theorem validUIDChar_safe (c : Char) (h : validUIDChar c = true) :
    c ≠ '/' ∧ c ≠ '\\' ∧ c ≠ '.' ∧ ¬('A' ≤ c ∧ c ≤ 'Z') := by
  unfold validUIDChar at h
  simp only [Bool.or_eq_true, Bool.and_eq_true, decide_eq_true_eq, beq_iff_eq] at h
  refine ⟨?_, ?_, ?_, ?_⟩
  · rintro rfl
    rcases h with ((⟨h1, _⟩ | ⟨h1, _⟩) | h1) | h1 <;> revert h1 <;> decide
  · rintro rfl
    rcases h with ((⟨h1, h2⟩ | ⟨h1, h2⟩) | h1) | h1 <;> first
      | exact absurd h2 (by decide)
      | exact absurd h1 (by decide)
  · rintro rfl
    rcases h with ((⟨h1, _⟩ | ⟨h1, _⟩) | h1) | h1 <;> revert h1 <;> decide
  · rintro ⟨hA, hZ⟩
    rcases h with ((⟨h1, _⟩ | ⟨_, h2⟩) | h1) | h1
    · exact absurd (le_trans h1 hZ) (by decide)
    · exact absurd (le_trans hA h2) (by decide)
    · subst h1
      exact absurd hZ (by decide)
    · subst h1
      exact absurd hA (by decide)

end Baby

/-- C10: `EnsureValidBabyUID` returns an error exactly when the UID is empty
or contains a character outside lowercase letters, digits, underscore and
hyphen; consequently every accepted UID contains no path separators (slash
or backslash), no dots, and no uppercase characters, so it cannot escape a
directory when used as a path component. -/
theorem c10_uid_validation :
    (∀ s : String, Baby.EnsureValidBabyUID s ≠ none
      ↔ (s.toList = [] ∨ ∃ c ∈ s.toList, Baby.validUIDChar c = false))
    ∧ (∀ s : String, Baby.EnsureValidBabyUID s = none →
        ∀ c ∈ s.toList, Baby.validUIDChar c = true
          ∧ c ≠ '/' ∧ c ≠ '\\' ∧ c ≠ '.' ∧ ¬('A' ≤ c ∧ c ≤ 'Z')) := by
  have hmatch : ∀ s : String, Baby.validUIDMatch s = true
      ↔ (s.toList ≠ [] ∧ ∀ c ∈ s.toList, Baby.validUIDChar c = true) := by
    intro s
    unfold Baby.validUIDMatch
    rw [Bool.and_eq_true, List.all_eq_true]
    simp [List.isEmpty_iff]
  constructor
  · intro s
    unfold Baby.EnsureValidBabyUID
    by_cases hv : Baby.validUIDMatch s = true
    · rw [hv]
      simp only [Bool.not_true, Bool.false_eq_true, if_false, ne_eq, not_true_eq_false,
        false_iff]
      rw [hmatch] at hv
      push_neg
      exact ⟨hv.1, fun c hc => by simp [hv.2 c hc]⟩
    · have hv' : Baby.validUIDMatch s = false := by
        cases hvv : Baby.validUIDMatch s
        · rfl
        · exact absurd hvv hv
      rw [hv']
      simp only [Bool.not_false, if_true, ne_eq, Option.some_ne_none, not_false_iff,
        true_iff]
      rw [hmatch] at hv
      push_neg at hv
      by_cases hd : s.toList = []
      · exact Or.inl hd
      · obtain ⟨c, hc, hcv⟩ := hv hd
        exact Or.inr ⟨c, hc, by simpa using hcv⟩
  · intro s hnone c hc
    have hv : Baby.validUIDMatch s = true := by
      by_contra hvf
      have : Baby.validUIDMatch s = false := by
        cases hvv : Baby.validUIDMatch s
        · rfl
        · exact absurd hvv hvf
      unfold Baby.EnsureValidBabyUID at hnone
      rw [this] at hnone
      exact Option.noConfusion hnone
    have hall := ((hmatch s).mp hv).2 c hc
    exact ⟨hall, Baby.validUIDChar_safe c hall⟩

/-- Witness for C10 at the accepted UID "abc-1_2" and its first character. -/
theorem c10_uid_validation_witness :
    Baby.validUIDChar 'a' = true
    ∧ 'a' ≠ '/' ∧ 'a' ≠ '\\' ∧ 'a' ≠ '.' ∧ ¬('A' ≤ 'a' ∧ 'a' ≤ 'Z') :=
  (c10_uid_validation).2 "abc-1_2" (by decide) 'a' (by decide)
